import Mathlib

/-!
Verification development for the teaching-assistant demo repository.

Shallow embedding of the two subsystems the claims concern:
* the advanced grading engine (`src/utils/advanced_grading.py`), and
* the asynchronous processing pipeline (`src/utils/processing_pipeline.py`).

Python floats are modelled as rationals (`ℚ`); Python dicts with
`.get(key, default)` access are modelled as `Option` fields read with
`Option.getD`; Python dictionaries keyed by task id are modelled as
association lists.  Wall-clock timestamps (`created_at`, `started_at`,
`completed_at`) carry no information used by any claim and are omitted;
measured handler duration is kept because confidence scoring reads it.
-/

namespace AdvancedGrading

/-- `StepEvaluation` dataclass from `src/utils/advanced_grading.py`:
one step of a student's worked solution as judged by the AI model. -/
structure StepEvaluation where
  step_number : Int
  step_description : String
  is_correct : Bool
  partial_credit : ℚ
  feedback : String
  reasoning : String
  confidence : ℚ
  deriving Repr, DecidableEq

/-- `QuestionScore` dataclass: per-question grading outcome. -/
structure QuestionScore where
  question_number : Int
  total_marks : ℚ
  awarded_marks : ℚ
  percentage : ℚ
  step_evaluations : List StepEvaluation
  strengths : List String
  weaknesses : List String
  suggestions : List String
  mathematical_reasoning_score : ℚ
  conceptual_understanding_score : ℚ
  presentation_score : ℚ
  overall_feedback : String
  confidence : ℚ
  deriving Repr, DecidableEq

/-- One entry of the `steps` array of the AI's JSON analysis, before the
`_extract_step_evaluations` defaulting is applied.  Each field is optional
because the Python code reads it with `step_data.get(key, default)`. -/
structure StepData where
  step_number : Option Int
  description : Option String
  is_correct : Option Bool
  partial_credit : Option ℚ
  feedback : Option String
  reasoning : Option String
  confidence : Option ℚ
  deriving Repr, DecidableEq

/-- The AI's JSON analysis of one answer (the dict returned by
`ai_grading_manager._grade_answer_advanced`).  Optional fields mirror the
`analysis_result.get(...)` accesses in `src/utils/advanced_grading.py`. -/
structure AnalysisResult where
  steps : Option (List StepData)
  strengths : Option (List String)
  weaknesses : Option (List String)
  suggestions : Option (List String)
  feedback : Option String
  conceptual_understanding : Option ℚ
  deriving Repr, DecidableEq

/-- An extracted answer record (as produced by `_extract_answers`). -/
structure Answer where
  number : Int
  text : String
  working_shown : Bool
  deriving Repr, DecidableEq

/-- An extracted question record (as produced by `_extract_questions`).
`marks` is optional to mirror `question.get('marks', 10)`. -/
structure Question where
  number : Int
  text : String
  marks : Option ℚ
  deriving Repr, DecidableEq

/-- `_extract_step_evaluations`: turn the `steps` array of the analysis into
`StepEvaluation`s, applying the `.get` defaults of the Python code
(missing `steps` key yields the empty list, per-field defaults
`0 / '' / False / 0.0 / 0.8`). -/
def extract_step_evaluations (analysis_result : AnalysisResult) : List StepEvaluation :=
  match analysis_result.steps with
  | none => []
  | some steps =>
    steps.map fun step_data =>
      { step_number := step_data.step_number.getD 0
        step_description := step_data.description.getD ""
        is_correct := step_data.is_correct.getD false
        partial_credit := step_data.partial_credit.getD 0
        feedback := step_data.feedback.getD ""
        reasoning := step_data.reasoning.getD ""
        confidence := step_data.confidence.getD (4/5) }

/-- `_calculate_partial_credit`: average the per-step partial credit, boost
by `1.2` when the solution has more than one step, scale by the maximum
marks and clamp to the maximum. -/
def calculate_partial_credit (step_evaluations : List StepEvaluation) (max_marks : ℚ) : ℚ :=
  if step_evaluations = [] then 0
  else
    let total_credit := (step_evaluations.map fun s => s.partial_credit).sum
    let average_credit := total_credit / (step_evaluations.length : ℚ)
    let weighted_credit :=
      if 1 < step_evaluations.length then average_credit * (6/5) else average_credit
    min (weighted_credit * max_marks) max_marks

/-- Whether a text matches the Python regex search `\d+[\.\)]`: some digit is
immediately followed by `.` or `)` (a numbered step). -/
def hasNumberedStep : List Char → Bool
  | c :: d :: rest => (c.isDigit && (d == '.' || d == ')')) || hasNumberedStep (d :: rest)
  | _ => false

/-- Whether a text matches the Python regex search `[=+\-*/()]`
(a mathematical symbol occurs). -/
def hasMathSymbol (text : String) : Bool :=
  text.toList.any fun c =>
    c == '=' || c == '+' || c == '-' || c == '*' || c == '/' || c == '(' || c == ')'

/-- Python `len(text.split())`: number of maximal non-empty
whitespace-separated words. -/
def pythonWordCount (text : String) : Nat :=
  ((text.split Char.isWhitespace).filter fun w => w ≠ "").length

/-- `_calculate_presentation_score`: base `0.5`, plus `0.2` for numbered
steps, `0.1` for mathematical symbols, `0.1` for more than 20 words,
`0.1` for `working_shown`, capped at `1.0`. -/
def calculate_presentation_score (answer : Answer) : ℚ :=
  let text := answer.text
  let score : ℚ := 1/2
  let score := if hasNumberedStep text.toList then score + 1/5 else score
  let score := if hasMathSymbol text then score + 1/10 else score
  let score := if 20 < pythonWordCount text then score + 1/10 else score
  let score := if answer.working_shown then score + 1/10 else score
  min score 1

/-- `_calculate_mathematical_reasoning_score`: each step's partial credit is
weighted by `1.0 + index * 0.2` (later steps weigh more), and the weighted
values are summed and divided by the number of steps. -/
def calculate_mathematical_reasoning_score (step_evaluations : List StepEvaluation) : ℚ :=
  if step_evaluations = [] then 0
  else
    let weighted_scores := step_evaluations.enum.map fun p =>
      p.2.partial_credit * (1 + (p.1 : ℚ) * (1/5))
    weighted_scores.sum / (step_evaluations.length : ℚ)

/-- `_calculate_conceptual_understanding_score`:
`analysis_result.get('conceptual_understanding', 0.0)`. -/
def calculate_conceptual_understanding_score (analysis_result : AnalysisResult) : ℚ :=
  analysis_result.conceptual_understanding.getD 0

/-- `_calculate_question_confidence`: mean step confidence, and an analysis
quality of `0.8` plus `0.1` for more than one step plus `0.1` for truthy
feedback, averaged together.  (The Python code returns this average as is.) -/
def calculate_question_confidence (step_evaluations : List StepEvaluation)
    (analysis_result : AnalysisResult) : ℚ :=
  if step_evaluations = [] then 0
  else
    let step_confidence :=
      (step_evaluations.map fun s => s.confidence).sum / (step_evaluations.length : ℚ)
    let analysis_quality : ℚ := 4/5
    let analysis_quality :=
      if 1 < step_evaluations.length then analysis_quality + 1/10 else analysis_quality
    let analysis_quality :=
      if (analysis_result.feedback.getD "") ≠ "" then analysis_quality + 1/10
      else analysis_quality
    (step_confidence + analysis_quality) / 2

/-- `_find_corresponding_answer`: first answer whose number matches. -/
def find_corresponding_answer (question_number : Int) (answers : List Answer) :
    Option Answer :=
  answers.find? fun a => a.number == question_number

/-- `_grade_individual_question`, paired with a flag recording whether the AI
grading model (`ai_grading_manager._grade_answer_advanced`) was invoked.  The
AI call is abstracted as a function from question text and answer text to
either an analysis or a raised exception message (the `except` branch of the
Python code). -/
def grade_individual_question (question : Question) (answer : Option Answer)
    (ai_grade : String → String → Except String AnalysisResult) :
    QuestionScore × Bool :=
  let question_number := question.number
  let max_marks := question.marks.getD 10
  match answer with
  | none =>
    ({ question_number := question_number
       total_marks := max_marks
       awarded_marks := 0
       percentage := 0
       step_evaluations := []
       strengths := []
       weaknesses := ["No answer provided"]
       suggestions := ["Ensure all questions are attempted"]
       mathematical_reasoning_score := 0
       conceptual_understanding_score := 0
       presentation_score := 0
       overall_feedback := "No answer provided for this question"
       confidence := 1 }, false)
  | some answer =>
    match ai_grade question.text answer.text with
    | Except.error _ =>
      ({ question_number := question_number
         total_marks := max_marks
         awarded_marks := 0
         percentage := 0
         step_evaluations := []
         strengths := []
         weaknesses := ["Error in grading"]
         suggestions := ["Please review manually"]
         mathematical_reasoning_score := 0
         conceptual_understanding_score := 0
         presentation_score := 0
         overall_feedback := "Error occurred during grading"
         confidence := 0 }, true)
    | Except.ok analysis_result =>
      let step_evaluations := extract_step_evaluations analysis_result
      let awarded_marks := calculate_partial_credit step_evaluations max_marks
      let percentage := if 0 < max_marks then awarded_marks / max_marks * 100 else 0
      ({ question_number := question_number
         total_marks := max_marks
         awarded_marks := awarded_marks
         percentage := percentage
         step_evaluations := step_evaluations
         strengths := analysis_result.strengths.getD []
         weaknesses := analysis_result.weaknesses.getD []
         suggestions := analysis_result.suggestions.getD []
         mathematical_reasoning_score := calculate_mathematical_reasoning_score step_evaluations
         conceptual_understanding_score := calculate_conceptual_understanding_score analysis_result
         presentation_score := calculate_presentation_score answer
         overall_feedback := analysis_result.feedback.getD ""
         confidence := calculate_question_confidence step_evaluations analysis_result }, true)

end AdvancedGrading

namespace ProcessingPipeline

/-- `ProcessingStatus` enum from `src/utils/processing_pipeline.py`. -/
inductive ProcessingStatus
  | pending
  | processing
  | completed
  | failed
  | retrying
  deriving Repr, DecidableEq

/-- `ProcessingPriority` enum. -/
inductive ProcessingPriority
  | low
  | normal
  | high
  | urgent
  deriving Repr, DecidableEq

/-- Numeric value of each priority (the Python `Enum` values). -/
def ProcessingPriority.value : ProcessingPriority → Nat
  | .low => 1
  | .normal => 2
  | .high => 3
  | .urgent => 4

/-- Result dictionary returned by a handler, restricted to the keys that
`_calculate_confidence_score` reads; optional fields mirror `.get`
defaults, and `ocr_errors` keeps the list whose truthiness is tested. -/
structure TaskResult where
  extracted_text : Option String
  ocr_errors : List String
  grading_confidence : Option ℚ
  processing_success : Option Bool
  deriving Repr, DecidableEq

/-- `ProcessingTask` dataclass.  The opaque payload (`data`) and the
wall-clock timestamps are omitted; `processing_time` (seconds) is kept
because confidence scoring reads it. -/
structure ProcessingTask where
  task_id : String
  task_type : String
  priority : ProcessingPriority
  status : ProcessingStatus
  retry_count : Nat
  max_retries : Nat
  error_message : Option String
  result : Option TaskResult
  confidence_score : Option ℚ
  processing_time : Option ℚ
  deriving Repr, DecidableEq

/-- A Python dict keyed by task id, as an association list: `dictSet`
overwrites in place, `dictDel` removes. -/
abbrev TaskDict := List (String × ProcessingTask)

/-- `d.get(k)` on a task dict: value of the first binding of the key. -/
def dictGet : TaskDict → String → Option ProcessingTask
  | [], _ => none
  | kv :: tl, k => if kv.1 = k then some kv.2 else dictGet tl k

/-- `d[k] = v` on a task dict: overwrite an existing binding in place, else
append a new one (dict insertion-order semantics). -/
def dictSet : TaskDict → String → ProcessingTask → TaskDict
  | [], k, v => [(k, v)]
  | kv :: tl, k, v => if kv.1 = k then (k, v) :: tl else kv :: dictSet tl k v

/-- `del d[k]` on a task dict. -/
def dictDel : TaskDict → String → TaskDict
  | [], _ => []
  | kv :: tl, k => if kv.1 = k then dictDel tl k else kv :: dictDel tl k

/-- One `queue.PriorityQueue` entry as the code enqueues it:
`(priority.value, task_id)`. -/
abbrev PQEntry := Nat × String

/-- Python tuple comparison on queue entries: lexicographic, with string
comparison on the task ids breaking ties between equal priority values. -/
def entryLt (x y : PQEntry) : Bool :=
  decide (x.1 < y.1) || (decide (x.1 = y.1) && decide (x.2 < y.2))

/-- The minimum entry of a heap — what the `heapq`-backed
`PriorityQueue.get` removes; the earliest insertion wins among equals. -/
def pqMin : List PQEntry → Option PQEntry
  | [] => none
  | x :: xs => some (xs.foldl (fun m y => if entryLt y m then y else m) x)

/-- Remove the first occurrence of an entry from the heap contents. -/
def pqRemove : List PQEntry → PQEntry → List PQEntry
  | [], _ => []
  | x :: xs, y => if x = y then xs else x :: pqRemove xs y

/-- `PriorityQueue.get`: remove and return the minimum entry. -/
def pqGet (q : List PQEntry) : Option (PQEntry × List PQEntry) :=
  match pqMin q with
  | none => none
  | some m => some (m, pqRemove q m)

/-- Whether a `queue.PriorityQueue(maxsize=m)` holding `q` is full
(`maxsize <= 0` means unbounded in Python). -/
def queueFull (max_queue_size : Nat) (q : List PQEntry) : Bool :=
  decide (0 < max_queue_size) && decide (max_queue_size ≤ q.length)

/-- The mutable state of a `ProcessingPipeline`, restricted to the fields
the claims concern (metrics, logging and worker bookkeeping are omitted). -/
structure PipelineState where
  max_queue_size : Nat
  queues : ProcessingPriority → List PQEntry
  tasks : TaskDict
  completed_tasks : TaskDict
  failed_tasks : TaskDict

/-- Fresh pipeline as built by `ProcessingPipeline.__init__` (the module's
global instance uses the default `max_queue_size = 100`). -/
def initial_state (max_queue_size : Nat) : PipelineState :=
  { max_queue_size := max_queue_size
    queues := fun _ => []
    tasks := []
    completed_tasks := []
    failed_tasks := [] }

/-- `submit_task`.  Task-id generation (an md5 of type, payload and the
current time) is abstracted: the fresh id is an argument and the payload is
opaque.  The function is total: the `queue.Full` branch records the failure
on the task instead of raising, exactly as the Python code does — and since
the Python dict entry `self.tasks[task_id]` aliases the mutated task
object, the failed task is visible in both `tasks` and `failed_tasks`. -/
def submit_task (st : PipelineState) (task_id : String) (task_type : String)
    (priority : ProcessingPriority) : PipelineState × String :=
  let task : ProcessingTask :=
    { task_id := task_id
      task_type := task_type
      priority := priority
      status := .pending
      retry_count := 0
      max_retries := 3
      error_message := none
      result := none
      confidence_score := none
      processing_time := none }
  let st := { st with tasks := dictSet st.tasks task_id task }
  if queueFull st.max_queue_size (st.queues priority) then
    let task := { task with status := .failed, error_message := some "Queue full" }
    ({ st with tasks := dictSet st.tasks task_id task
               failed_tasks := dictSet st.failed_tasks task_id task }, task_id)
  else
    ({ st with queues := fun p =>
        if p = priority then st.queues priority ++ [(priority.value, task_id)]
        else st.queues p }, task_id)

/-- One scan of `_worker_loop` over the queues in the fixed order given,
returning the dequeued task id and the updated state (`none` when every
scanned queue is empty). -/
def worker_scan (st : PipelineState) :
    List ProcessingPriority → Option (String × PipelineState)
  | [] => none
  | p :: ps =>
    match pqGet (st.queues p) with
    | some (e, rest) =>
      some (e.2, { st with queues := fun q => if q = p then rest else st.queues q })
    | none => worker_scan st ps

/-- The dequeue step of `_worker_loop`: scan URGENT, HIGH, NORMAL, LOW. -/
def worker_get_task (st : PipelineState) : Option (String × PipelineState) :=
  worker_scan st [.urgent, .high, .normal, .low]

/-- `_calculate_confidence_score`.  The Python guard
`if task.processing_time:` is falsy both for `None` and for `0.0`. -/
def calculate_confidence_score (task : ProcessingTask) (result : TaskResult) : ℚ :=
  let base : ℚ := 4/5
  let base :=
    if task.task_type = "ocr_extraction" then
      let text_length := (result.extracted_text.getD "").length
      let base :=
        if 100 < text_length then base + 1/10
        else if text_length < 10 then base - 1/5
        else base
      if result.ocr_errors ≠ [] then base - 1/10 else base
    else if task.task_type = "grading" then
      result.grading_confidence.getD (1/2)
    else if task.task_type = "file_processing" then
      if result.processing_success.getD false then base + 1/10 else base - 1/5
    else base
  let base :=
    match task.processing_time with
    | none => base
    | some t =>
      if t ≠ 0 then
        if t < 5 then base + 1/20 else if 30 < t then base - 1/20 else base
      else base
  let base := if 0 < task.retry_count then base - (task.retry_count : ℚ) * (1/10) else base
  max 0 (min 1 base)

/-- `_handle_task_error`: bump `retry_count`, record the message; within the
retry budget mark the task RETRYING (a `threading.Timer` then fires
`_retry_task`), otherwise move it permanently to the failed dict. -/
def handle_task_error (st : PipelineState) (task : ProcessingTask) (msg : String) :
    PipelineState :=
  let task := { task with retry_count := task.retry_count + 1, error_message := some msg }
  if task.retry_count ≤ task.max_retries then
    let task := { task with status := .retrying }
    { st with tasks := dictSet st.tasks task.task_id task }
  else
    let task := { task with status := .failed }
    { st with failed_tasks := dictSet st.failed_tasks task.task_id task
              tasks := dictDel st.tasks task.task_id }

/-- Outcome of looking up and invoking the handler for one attempt: `none`
when no handler is registered for the task's type (the code then raises
`ValueError("No handler registered for task type: ...")`), otherwise the
handler's own outcome — a result with the measured wall-clock duration, or
a raised exception message. -/
abbrev HandlerOutcome := Option (Except String (TaskResult × ℚ))

/-- `_process_task`.  On success, note the order of the Python code: the
confidence score is computed from the task *before* `task.processing_time`
is assigned. -/
def process_task (st : PipelineState) (task_id : String) (outcome : HandlerOutcome) :
    PipelineState :=
  match dictGet st.tasks task_id with
  | none => st
  | some task =>
    let task := { task with status := .processing }
    match outcome with
    | none =>
      handle_task_error st task ("No handler registered for task type: " ++ task.task_type)
    | some (Except.error msg) => handle_task_error st task msg
    | some (Except.ok (result, processing_time)) =>
      let confidence_score := calculate_confidence_score task result
      let task := { task with
        status := .completed
        result := some result
        confidence_score := some confidence_score
        processing_time := some processing_time }
      { st with completed_tasks := dictSet st.completed_tasks task_id task
                tasks := dictDel st.tasks task_id }

/-- `_retry_task` (the timer callback): reset the task and re-enqueue it at
its original priority; when the queue is full the task is moved straight to
the failed dict. -/
def retry_task (st : PipelineState) (task_id : String) : PipelineState :=
  match dictGet st.tasks task_id with
  | none => st
  | some task =>
    let task := { task with
      status := .pending
      error_message := none
      result := none }
    if queueFull st.max_queue_size (st.queues task.priority) then
      let task := { task with status := .failed }
      { st with failed_tasks := dictSet st.failed_tasks task_id task
                tasks := dictDel st.tasks task_id }
    else
      { st with
        tasks := dictSet st.tasks task_id task
        queues := fun p =>
          if p = task.priority then
            st.queues task.priority ++ [(task.priority.value, task_id)]
          else st.queues p }

/-- `get_task_status`: look the id up in the pending, completed and failed
dicts, in that order. -/
def get_task_status (st : PipelineState) (task_id : String) : Option ProcessingTask :=
  (dictGet st.tasks task_id).orElse fun _ =>
    (dictGet st.completed_tasks task_id).orElse fun _ =>
      dictGet st.failed_tasks task_id

/-- One worker/timer round with a handler that always raises `msg`: dequeue
one task, process it (the handler raises), then let the scheduled retry
timer fire.  `retry_task` is a no-op when the failure was permanent. -/
def fail_cycle (st : PipelineState) (msg : String) : PipelineState :=
  match worker_get_task st with
  | none => st
  | some (task_id, st) =>
    retry_task (process_task st task_id (some (Except.error msg))) task_id

/-- Iterate `fail_cycle`. -/
def fail_cycles (st : PipelineState) (msg : String) : Nat → PipelineState
  | 0 => st
  | n + 1 => fail_cycles (fail_cycle st msg) msg n

end ProcessingPipeline

namespace AdvancedGrading

/-- Concrete sample step used by witnesses: half credit, fully described. -/
def sampleStepHalf : StepEvaluation :=
  { step_number := 1
    step_description := "isolate x"
    is_correct := true
    partial_credit := 1/2
    feedback := "good"
    reasoning := "correct manipulation"
    confidence := 9/10 }

/-- A step judged fully correct with full partial credit and confidence 1 —
every per-step value at the top of its documented range. -/
def perfectStep : StepEvaluation :=
  { step_number := 1
    step_description := "expand the bracket"
    is_correct := true
    partial_credit := 1
    feedback := "correct"
    reasoning := "valid expansion"
    confidence := 1 }

/-- A step whose AI-reported confidence lies above 1 (nothing in the code
validates the value parsed from the model's JSON). -/
def highConfStep : StepEvaluation :=
  { perfectStep with confidence := 3 }

/-- An analysis dict with every optional key absent. -/
def emptyAnalysis : AnalysisResult :=
  { steps := none
    strengths := none
    weaknesses := none
    suggestions := none
    feedback := none
    conceptual_understanding := none }

/-- A small in-range analysis used by witnesses. -/
def sampleAnalysis : AnalysisResult :=
  { emptyAnalysis with feedback := some "well done", conceptual_understanding := some (1/2) }

/-- A short concrete answer record. -/
def sampleAnswer : Answer :=
  { number := 1, text := "1. x = 2 + 3", working_shown := true }

/-- Question number 3 of the spec's missing-answer scenario. -/
def question3 : Question :=
  { number := 3, text := "Solve for x", marks := some 5 }

/-- An answers list that has no answer numbered 3. -/
def answersWithout3 : List Answer :=
  [{ number := 1, text := "x = 5", working_shown := false }]

end AdvancedGrading

namespace ProcessingPipeline

/-- A handler result dict with no recognised keys set. -/
def emptyResult : TaskResult :=
  { extracted_text := none
    ocr_errors := []
    grading_confidence := none
    processing_success := none }

/-- The task record `submit_task` creates for id `t1` of type
`custom_type` at NORMAL priority (a type with no registered handler). -/
def c2Task : ProcessingTask :=
  { task_id := "t1"
    task_type := "custom_type"
    priority := .normal
    status := .pending
    retry_count := 0
    max_retries := 3
    error_message := none
    result := none
    confidence_score := none
    processing_time := none }

/-- A pipeline holding exactly the pending task `c2Task`. -/
def c2State : PipelineState :=
  { max_queue_size := 100
    queues := fun _ => []
    tasks := [("t1", c2Task)]
    completed_tasks := []
    failed_tasks := [] }

/-- The `report_generation` task of the confidence-timing scenario, as it
looks inside `_process_task` right after line `task.processing_time =
processing_time` would have run with a measured duration of 2 seconds. -/
def reportTaskTimed : ProcessingTask :=
  { task_id := "t1"
    task_type := "report_generation"
    priority := .normal
    status := .processing
    retry_count := 0
    max_retries := 3
    error_message := none
    result := none
    confidence_score := none
    processing_time := some 2 }

end ProcessingPipeline

namespace ProcessingPipeline

/-- Reading a dict after writing: the written key returns the new value and
every other key is unchanged. -/
theorem dictGet_dictSet (d : TaskDict) (k k' : String) (v : ProcessingTask) :
    dictGet (dictSet d k v) k' = if k = k' then some v else dictGet d k' := by
  induction d with
  | nil => simp [dictSet, dictGet]
  | cons kv tl ih =>
    simp only [dictSet]
    by_cases h1 : kv.1 = k
    · rw [if_pos h1]
      by_cases h2 : k = k'
      · simp [dictGet, h2]
      · simp [dictGet, h2, show ¬ kv.1 = k' from fun e => h2 (h1.symm.trans e)]
    · rw [if_neg h1]
      by_cases h2 : kv.1 = k'
      · simp [dictGet, h2, show ¬ k = k' from fun e => h1 (h2.trans e.symm)]
      · simp [dictGet, h2, ih]

/-- Reading a dict after deleting: the deleted key is gone and every other
key is unchanged. -/
theorem dictGet_dictDel (d : TaskDict) (k k' : String) :
    dictGet (dictDel d k) k' = if k = k' then none else dictGet d k' := by
  induction d with
  | nil => simp [dictDel, dictGet]
  | cons kv tl ih =>
    simp only [dictDel]
    by_cases h1 : kv.1 = k
    · rw [if_pos h1]
      by_cases h2 : k = k'
      · rw [ih]
        simp [h2]
      · simp [dictGet, ih, h2, show ¬ kv.1 = k' from fun e => h2 (h1.symm.trans e)]
    · rw [if_neg h1]
      by_cases h2 : kv.1 = k'
      · simp [dictGet, h2, show ¬ k = k' from fun e => h1 (h2.trans e.symm)]
      · simp [dictGet, h2, ih]

/-- A task id resolves iff it is present in one of the three dicts. -/
theorem get_task_status_isSome (st : PipelineState) (id : String) :
    (get_task_status st id).isSome =
      ((dictGet st.tasks id).isSome || (dictGet st.completed_tasks id).isSome ||
        (dictGet st.failed_tasks id).isSome) := by
  unfold get_task_status
  cases dictGet st.tasks id <;> cases dictGet st.completed_tasks id <;>
    cases dictGet st.failed_tasks id <;> rfl

/-- The worker dequeue step only touches the queues, never the task dicts. -/
theorem worker_scan_dicts (st : PipelineState) (ps : List ProcessingPriority)
    (tid : String) (st' : PipelineState) (h : worker_scan st ps = some (tid, st')) :
    st'.tasks = st.tasks ∧ st'.completed_tasks = st.completed_tasks ∧
      st'.failed_tasks = st.failed_tasks := by
  induction ps with
  | nil => simp [worker_scan] at h
  | cons p ps ih =>
    unfold worker_scan at h
    cases hq : pqGet (st.queues p) with
    | none => rw [hq] at h; exact ih h
    | some e =>
      rw [hq] at h
      simp at h
      obtain ⟨-, h2⟩ := h
      rw [← h2]
      exact ⟨rfl, rfl, rfl⟩

end ProcessingPipeline

namespace AdvancedGrading

/-- Sum of mapped values is at most the length when each value is at
most one. -/
theorem sum_map_le_length (l : List StepEvaluation) (f : StepEvaluation → ℚ)
    (h : ∀ s ∈ l, f s ≤ 1) : (l.map f).sum ≤ (l.length : ℚ) := by
  induction l with
  | nil => simp
  | cons s tl ih =>
    simp only [List.map_cons, List.sum_cons, List.length_cons]
    have h1 := ih fun x hx => h x (List.mem_cons_of_mem _ hx)
    have h2 := h s (List.mem_cons_self _ _)
    push_cast
    linarith

/-- Sum of mapped values is nonnegative when each value is. -/
theorem sum_map_nonneg (l : List StepEvaluation) (f : StepEvaluation → ℚ)
    (h : ∀ s ∈ l, 0 ≤ f s) : 0 ≤ (l.map f).sum := by
  induction l with
  | nil => simp
  | cons s tl ih =>
    simp only [List.map_cons, List.sum_cons]
    have h1 := ih fun x hx => h x (List.mem_cons_of_mem _ hx)
    have h2 := h s (List.mem_cons_self _ _)
    linarith

/-- The weighted partial-credit sum of the mathematical-reasoning score,
enumerated from index `k`, is at most the sum of the weights
`1 + i * 0.2` themselves when every partial credit is at most one. -/
theorem weighted_sum_le (l : List StepEvaluation) (k : Nat)
    (h : ∀ s ∈ l, s.partial_credit ≤ 1) :
    ((List.enumFrom k l).map fun p => p.2.partial_credit * (1 + (p.1 : ℚ) * (1/5))).sum ≤
      (l.length : ℚ) + ((l.length : ℚ) * (k : ℚ) +
        (l.length : ℚ) * ((l.length : ℚ) - 1) / 2) * (1/5) := by
  induction l generalizing k with
  | nil => simp
  | cons s tl ih =>
    simp only [List.enumFrom, List.map_cons, List.sum_cons, List.length_cons]
    have h1 := ih (k + 1) fun x hx => h x (List.mem_cons_of_mem _ hx)
    have h2 := h s (List.mem_cons_self _ _)
    have hw : (0 : ℚ) ≤ 1 + (k : ℚ) * (1/5) := by positivity
    have h3 : s.partial_credit * (1 + (k : ℚ) * (1/5)) ≤ 1 * (1 + (k : ℚ) * (1/5)) :=
      mul_le_mul_of_nonneg_right h2 hw
    push_cast at h1 ⊢
    nlinarith [h1, h3]

/-- The weighted partial-credit sum is nonnegative when every partial
credit is. -/
theorem weighted_sum_nonneg (l : List StepEvaluation) (k : Nat)
    (h : ∀ s ∈ l, 0 ≤ s.partial_credit) :
    0 ≤ ((List.enumFrom k l).map fun p => p.2.partial_credit * (1 + (p.1 : ℚ) * (1/5))).sum := by
  induction l generalizing k with
  | nil => simp
  | cons s tl ih =>
    simp only [List.enumFrom, List.map_cons, List.sum_cons]
    have h1 := ih (k + 1) fun x hx => h x (List.mem_cons_of_mem _ hx)
    have h2 := mul_nonneg (h s (List.mem_cons_self _ _))
      (show (0 : ℚ) ≤ 1 + (k : ℚ) * (1/5) by positivity)
    linarith

/-- The presentation score always lies in `[0, 1]` (in fact in `[0.5, 1]`):
it starts at `0.5`, only bonuses are added, and it is capped at `1`. -/
theorem presentation_score_bounds (answer : Answer) :
    0 ≤ calculate_presentation_score answer ∧ calculate_presentation_score answer ≤ 1 := by
  constructor
  · simp only [calculate_presentation_score, le_min_iff]
    split_ifs <;> norm_num
  · simp only [calculate_presentation_score]
    exact min_le_right _ _

/-- Claim C4: for a question graded with at least one step evaluation,
`_calculate_partial_credit` awards
`min(mean(step partial credit) * boost * total_marks, total_marks)` with
boost `1.2` for more than one step and `1.0` otherwise, and hence the
awarded marks never exceed the question's total marks. -/
theorem C4_partial_credit_formula (steps : List StepEvaluation) (m : ℚ)
    (h : steps ≠ []) :
    calculate_partial_credit steps m =
      min (((steps.map fun s => s.partial_credit).sum / (steps.length : ℚ)) *
        (if 1 < steps.length then (6/5 : ℚ) else 1) * m) m ∧
    calculate_partial_credit steps m ≤ m := by
  constructor
  · simp only [calculate_partial_credit, h, if_false]
    split <;> ring_nf
  · simp only [calculate_partial_credit, h, if_false]
    exact min_le_right _ _

/-- Witness for C4: the theorem evaluates on a concrete one-step list
worth 10 marks. -/
theorem C4_witness :
    calculate_partial_credit [sampleStepHalf] 10 ≤ 10 :=
  (C4_partial_credit_formula [sampleStepHalf] 10 (List.cons_ne_nil _ _)).2

/-- Claim C7 fails on the code: with two steps both carrying the maximal
partial credit `1.0`, `_calculate_mathematical_reasoning_score` returns
`(1*1.0 + 1*1.2)/2 = 1.1`, which lies outside `[0, 1]`. -/
theorem C7_counterexample :
    calculate_mathematical_reasoning_score [perfectStep, perfectStep] = 11/10 ∧
      ¬ calculate_mathematical_reasoning_score [perfectStep, perfectStep] ≤ 1 := by
  have h : calculate_mathematical_reasoning_score [perfectStep, perfectStep] = 11/10 := by
    simp [calculate_mathematical_reasoning_score, List.enum, List.enumFrom, perfectStep]
    norm_num
  refine ⟨h, ?_⟩
  rw [h]
  norm_num

/-- Claim C7 amended: with step partial credits in `[0, 1]` and an
in-range (or absent) reported conceptual understanding, the conceptual and
presentation scores lie in `[0, 1]`, but the mathematical-reasoning score
is only bounded by `1 + (n - 1)/10` for `n` steps — it stays in `[0, 1]`
only when the question has at most one step. -/
theorem C7_component_scores_amended (steps : List StepEvaluation) (answer : Answer)
    (analysis_result : AnalysisResult)
    (hpc : ∀ s ∈ steps, 0 ≤ s.partial_credit ∧ s.partial_credit ≤ 1)
    (hcu : ∀ c ∈ analysis_result.conceptual_understanding, 0 ≤ c ∧ c ≤ 1) :
    (0 ≤ calculate_mathematical_reasoning_score steps ∧
      calculate_mathematical_reasoning_score steps ≤
        1 + ((steps.length : ℚ) - 1) * (1/10)) ∧
    (steps.length ≤ 1 → calculate_mathematical_reasoning_score steps ≤ 1) ∧
    (0 ≤ calculate_conceptual_understanding_score analysis_result ∧
      calculate_conceptual_understanding_score analysis_result ≤ 1) ∧
    (0 ≤ calculate_presentation_score answer ∧ calculate_presentation_score answer ≤ 1) := by
  have hmath : 0 ≤ calculate_mathematical_reasoning_score steps ∧
      calculate_mathematical_reasoning_score steps ≤
        1 + ((steps.length : ℚ) - 1) * (1/10) := by
    by_cases he : steps = []
    · subst he
      constructor
      · simp [calculate_mathematical_reasoning_score]
      · simp [calculate_mathematical_reasoning_score]
        norm_num
    · have hn : 0 < (steps.length : ℚ) := by
        exact_mod_cast List.length_pos.mpr he
      constructor
      · simp only [calculate_mathematical_reasoning_score, he, if_false]
        apply div_nonneg _ hn.le
        exact weighted_sum_nonneg steps 0 fun s hs => (hpc s hs).1
      · simp only [calculate_mathematical_reasoning_score, he, if_false]
        rw [div_le_iff₀ hn]
        have hb := weighted_sum_le steps 0 fun s hs => (hpc s hs).2
        calc ((List.enumFrom 0 steps).map fun p =>
              p.2.partial_credit * (1 + (p.1 : ℚ) * (1/5))).sum
            ≤ (steps.length : ℚ) + ((steps.length : ℚ) * (0 : ℚ) +
                (steps.length : ℚ) * ((steps.length : ℚ) - 1) / 2) * (1/5) := by
              simpa using hb
          _ = (1 + ((steps.length : ℚ) - 1) * (1/10)) * (steps.length : ℚ) := by ring
  refine ⟨hmath, ?_, ?_, presentation_score_bounds answer⟩
  · intro hlen
    have h1 : ((steps.length : ℚ) - 1) * (1/10) ≤ 0 := by
      have : (steps.length : ℚ) ≤ 1 := by exact_mod_cast hlen
      linarith
    linarith [hmath.2]
  · unfold calculate_conceptual_understanding_score
    cases hc : analysis_result.conceptual_understanding with
    | none => simp
    | some c =>
      have := hcu c (by rw [hc]; rfl)
      simpa using this

/-- Witness for C7's amended theorem: a concrete in-range step, answer and
analysis satisfy the hypotheses and the bounds evaluate. -/
theorem C7_witness :
    0 ≤ calculate_presentation_score sampleAnswer ∧
      calculate_presentation_score sampleAnswer ≤ 1 :=
  (C7_component_scores_amended [sampleStepHalf] sampleAnswer sampleAnalysis
    (by intro s hs; simp at hs; subst hs; constructor <;> norm_num [sampleStepHalf])
    (by intro c hc; simp [sampleAnalysis, emptyAnalysis] at hc; subst hc;
        constructor <;> norm_num)).2.2.2

/-- Claim C8 fails on the code: `_calculate_question_confidence` applies no
clamp — a single step whose AI-reported confidence is `3.0` with no
feedback yields `(3.0 + 0.8)/2 = 1.9`, outside `[0, 1]`. -/
theorem C8_counterexample :
    calculate_question_confidence [highConfStep] emptyAnalysis = 19/10 ∧
      ¬ calculate_question_confidence [highConfStep] emptyAnalysis ≤ 1 := by
  have h : calculate_question_confidence [highConfStep] emptyAnalysis = 19/10 := by
    simp [calculate_question_confidence, highConfStep, perfectStep, emptyAnalysis]
    norm_num
  refine ⟨h, ?_⟩
  rw [h]
  norm_num

/-- Claim C8 amended: the code never clamps, but whenever every step
confidence lies in `[0, 1]` the returned per-question confidence lies in
`[0, 1]` (in fact in `[0.4, 1]`) because the analysis-quality term is at
most `1`. -/
theorem C8_question_confidence_amended (steps : List StepEvaluation)
    (analysis_result : AnalysisResult)
    (h : ∀ s ∈ steps, 0 ≤ s.confidence ∧ s.confidence ≤ 1) :
    0 ≤ calculate_question_confidence steps analysis_result ∧
      calculate_question_confidence steps analysis_result ≤ 1 := by
  by_cases he : steps = []
  · subst he
    simp [calculate_question_confidence]
  · have hn : 0 < (steps.length : ℚ) := by
      exact_mod_cast List.length_pos.mpr he
    have hsum_le := sum_map_le_length steps (fun s => s.confidence) fun s hs => (h s hs).2
    have hsum_nn := sum_map_nonneg steps (fun s => s.confidence) fun s hs => (h s hs).1
    have hmean_le : (steps.map fun s => s.confidence).sum / (steps.length : ℚ) ≤ 1 := by
      rw [div_le_one hn]
      exact hsum_le
    have hmean_nn : 0 ≤ (steps.map fun s => s.confidence).sum / (steps.length : ℚ) :=
      div_nonneg hsum_nn hn.le
    simp only [calculate_question_confidence, he, if_false]
    split_ifs <;> constructor <;> linarith

/-- Witness for C8's amended theorem: a concrete in-range step list
satisfies the hypothesis and the bounds evaluate. -/
theorem C8_witness :
    0 ≤ calculate_question_confidence [sampleStepHalf] sampleAnalysis ∧
      calculate_question_confidence [sampleStepHalf] sampleAnalysis ≤ 1 :=
  C8_question_confidence_amended [sampleStepHalf] sampleAnalysis
    (by intro s hs; simp at hs; subst hs; constructor <;> norm_num [sampleStepHalf])

/-- Claim C9: when no extracted answer carries the question's number, the
question is scored `0.0` marks, `0.0` percent, with `"No answer provided"`
as the sole weakness — and the AI grading model is not invoked (the
returned flag is `false`). -/
theorem C9_missing_answer (question : Question) (answers : List Answer)
    (ai_grade : String → String → Except String AnalysisResult)
    (h : ∀ a ∈ answers, a.number ≠ question.number) :
    grade_individual_question question
        (find_corresponding_answer question.number answers) ai_grade =
      ({ question_number := question.number
         total_marks := question.marks.getD 10
         awarded_marks := 0
         percentage := 0
         step_evaluations := []
         strengths := []
         weaknesses := ["No answer provided"]
         suggestions := ["Ensure all questions are attempted"]
         mathematical_reasoning_score := 0
         conceptual_understanding_score := 0
         presentation_score := 0
         overall_feedback := "No answer provided for this question"
         confidence := 1 }, false) := by
  have hf : find_corresponding_answer question.number answers = none := by
    unfold find_corresponding_answer
    rw [List.find?_eq_none]
    intro a ha
    simpa using h a ha
  rw [hf]
  rfl

/-- Witness for C9: the spec's scenario — question 3 present, answer 3
absent — satisfies the hypothesis and the theorem evaluates on it. -/
theorem C9_witness :
    grade_individual_question question3
        (find_corresponding_answer question3.number answersWithout3)
        (fun _ _ => Except.error "unused") =
      ({ question_number := 3
         total_marks := 5
         awarded_marks := 0
         percentage := 0
         step_evaluations := []
         strengths := []
         weaknesses := ["No answer provided"]
         suggestions := ["Ensure all questions are attempted"]
         mathematical_reasoning_score := 0
         conceptual_understanding_score := 0
         presentation_score := 0
         overall_feedback := "No answer provided for this question"
         confidence := 1 }, false) :=
  C9_missing_answer question3 answersWithout3 (fun _ _ => Except.error "unused") (by decide)

end AdvancedGrading

namespace ProcessingPipeline

/-- Resolvability of any task id survives `_handle_task_error`: the retry
branch rewrites the task in the pending dict, the permanent-failure branch
moves it from the pending dict to the failed dict. -/
theorem resolvable_handle_task_error (st : PipelineState) (task : ProcessingTask)
    (msg id : String) (h : (get_task_status st id).isSome = true) :
    (get_task_status (handle_task_error st task msg) id).isSome = true := by
  rw [get_task_status_isSome] at h
  simp only [Bool.or_eq_true] at h
  unfold handle_task_error
  dsimp only
  split
  · rw [get_task_status_isSome]
    simp only [Bool.or_eq_true]
    by_cases hk : task.task_id = id <;> simp [dictGet_dictSet, hk] <;> tauto
  · rw [get_task_status_isSome]
    simp only [Bool.or_eq_true]
    by_cases hk : task.task_id = id <;>
      simp [dictGet_dictSet, dictGet_dictDel, hk] <;> tauto

/-- Resolvability of any task id survives `_process_task`, whatever the
handler lookup and invocation produce. -/
theorem resolvable_process_task (st : PipelineState) (tid : String)
    (outcome : HandlerOutcome) (id : String)
    (h : (get_task_status st id).isSome = true) :
    (get_task_status (process_task st tid outcome) id).isSome = true := by
  unfold process_task
  cases hg : dictGet st.tasks tid with
  | none => exact h
  | some task =>
    dsimp only
    cases outcome with
    | none => exact resolvable_handle_task_error _ _ _ _ h
    | some exc =>
      cases exc with
      | error msg => exact resolvable_handle_task_error _ _ _ _ h
      | ok pr =>
        rw [get_task_status_isSome] at h
        simp only [Bool.or_eq_true] at h
        rw [get_task_status_isSome]
        simp only [Bool.or_eq_true]
        by_cases hk : tid = id <;>
          simp [dictGet_dictSet, dictGet_dictDel, hk] <;> tauto

/-- Resolvability of any task id survives `_retry_task`: re-enqueueing
rewrites the pending dict entry and a full queue moves the task to the
failed dict. -/
theorem resolvable_retry_task (st : PipelineState) (tid id : String)
    (h : (get_task_status st id).isSome = true) :
    (get_task_status (retry_task st tid) id).isSome = true := by
  rw [get_task_status_isSome] at h
  simp only [Bool.or_eq_true] at h
  unfold retry_task
  cases hg : dictGet st.tasks tid with
  | none =>
    rw [get_task_status_isSome]
    simp only [Bool.or_eq_true]
    tauto
  | some task =>
    dsimp only
    split
    · rw [get_task_status_isSome]
      simp only [Bool.or_eq_true]
      by_cases hk : tid = id <;>
        simp [dictGet_dictSet, dictGet_dictDel, hk] <;> tauto
    · rw [get_task_status_isSome]
      simp only [Bool.or_eq_true]
      by_cases hk : tid = id <;> simp [dictGet_dictSet, hk] <;> tauto

/-- `submit_task` makes the fresh id resolvable and keeps every already
resolvable id resolvable (both the accepted and the queue-full branch leave
the task reachable from the tracking dicts). -/
theorem resolvable_submit_task (st : PipelineState) (tid ttype id : String)
    (p : ProcessingPriority)
    (h : (get_task_status st id).isSome = true ∨ tid = id) :
    (get_task_status (submit_task st tid ttype p).1 id).isSome = true := by
  have h2 : (dictGet st.tasks id).isSome = true ∨
      (dictGet st.completed_tasks id).isSome = true ∨
      (dictGet st.failed_tasks id).isSome = true ∨ tid = id := by
    cases h with
    | inl h =>
      rw [get_task_status_isSome] at h
      simp only [Bool.or_eq_true] at h
      tauto
    | inr h => tauto
  unfold submit_task
  dsimp only
  split
  · rw [get_task_status_isSome]
    simp only [Bool.or_eq_true]
    by_cases hk : tid = id <;> simp [dictGet_dictSet, hk] <;> tauto
  · rw [get_task_status_isSome]
    simp only [Bool.or_eq_true]
    by_cases hk : tid = id <;> simp [dictGet_dictSet, hk] <;> tauto

end ProcessingPipeline

namespace ProcessingPipeline

/-- Claim C10: a submitted task id always resolves: `submit_task` places the
id in the tracking dicts (even in the queue-full admission-failure branch),
and every pipeline step — submission of other tasks, worker dequeue,
processing with any handler outcome (success, exception, missing handler),
and the retry timer — keeps every resolvable id in at least one of the
pending, completed or failed dicts, so `get_task_status` keeps returning
the task. -/
theorem C10_task_id_stays_resolvable (st : PipelineState) (id tid ttype : String)
    (p : ProcessingPriority) (outcome : HandlerOutcome) (tid2 : String)
    (st2 : PipelineState) (h : (get_task_status st id).isSome = true) :
    (get_task_status (submit_task st id ttype p).1 id).isSome = true ∧
    (get_task_status (submit_task st tid ttype p).1 id).isSome = true ∧
    (worker_get_task st = some (tid2, st2) → (get_task_status st2 id).isSome = true) ∧
    (get_task_status (process_task st tid outcome) id).isSome = true ∧
    (get_task_status (retry_task st tid) id).isSome = true := by
  refine ⟨resolvable_submit_task st id ttype id p (Or.inr rfl),
    resolvable_submit_task st tid ttype id p (Or.inl h), ?_,
    resolvable_process_task st tid outcome id h,
    resolvable_retry_task st tid id h⟩
  intro hw
  obtain ⟨h1, h2, h3⟩ := worker_scan_dicts st _ tid2 st2 hw
  rw [get_task_status_isSome, h1, h2, h3]
  rw [get_task_status_isSome] at h
  exact h

/-- Witness for C10: a concrete resolvable task stays resolvable across a
processing step on a pipeline holding it. -/
theorem C10_witness :
    (get_task_status (process_task c2State "t1" none) "t1").isSome = true :=
  (C10_task_id_stays_resolvable c2State "t1" "t1" "grading" ProcessingPriority.normal
    none "t1" c2State (by rfl)).2.2.2.1

/-- Claim C3: `submit_task` is a total function (never raises) returning the
task id, and when the target priority queue is at capacity the returned id
resolves to a task with status FAILED and the admission error message
`"Queue full"`. -/
theorem C3_submit_total_queue_full (st : PipelineState) (id ttype : String)
    (p : ProcessingPriority) :
    (submit_task st id ttype p).2 = id ∧
    (queueFull st.max_queue_size (st.queues p) = true →
      get_task_status (submit_task st id ttype p).1 id = some
        { task_id := id, task_type := ttype, priority := p,
          status := ProcessingStatus.failed, retry_count := 0, max_retries := 3,
          error_message := some "Queue full", result := none,
          confidence_score := none, processing_time := none }) := by
  constructor
  · unfold submit_task
    dsimp only
    split <;> rfl
  · intro hfull
    unfold submit_task
    dsimp only
    rw [if_pos hfull]
    dsimp only
    unfold get_task_status
    rw [dictGet_dictSet, if_pos rfl]
    rfl

/-- Witness for C3: the spec's scenario — capacity 1, two submissions to the
same priority with no worker running — satisfies the queue-full hypothesis
and the second id resolves to the FAILED "Queue full" task. -/
theorem C3_witness :
    get_task_status (submit_task ((submit_task (initial_state 1) "x1" "grading"
        ProcessingPriority.normal).1) "x2" "grading" ProcessingPriority.normal).1 "x2" =
      some
        { task_id := "x2", task_type := "grading", priority := ProcessingPriority.normal,
          status := ProcessingStatus.failed, retry_count := 0, max_retries := 3,
          error_message := some "Queue full", result := none,
          confidence_score := none, processing_time := none } :=
  (C3_submit_total_queue_full ((submit_task (initial_state 1) "x1" "grading"
    ProcessingPriority.normal).1) "x2" "grading" ProcessingPriority.normal).2 (by rfl)

/-- Dequeue semantics inside one priority class: with two tasks submitted
to the empty NORMAL class of a fresh pipeline, the worker dequeues the one
whose task-id string is lexicographically smaller (Python tuple comparison
between the `(priority.value, task_id)` heap entries). -/
theorem dequeue_two_normal (id1 id2 ttype : String) :
    ((worker_get_task (submit_task ((submit_task (initial_state 100) id1 ttype
        ProcessingPriority.normal).1) id2 ttype ProcessingPriority.normal).1).map
      Prod.fst) = some (if id2 < id1 then id2 else id1) := by
  by_cases h : id2 < id1
  · have h2 : id2.data < id1.data := String.lt_iff_toList_lt.mp h
    simp [worker_get_task, worker_scan, submit_task, initial_state, pqGet, pqMin, pqRemove,
      entryLt, queueFull, ProcessingPriority.value, h, h2]
  · have h2 : ¬ id2.data < id1.data := fun hh => h (String.lt_iff_toList_lt.mpr hh)
    simp [worker_get_task, worker_scan, submit_task, initial_state, pqGet, pqMin, pqRemove,
      entryLt, queueFull, ProcessingPriority.value, h, h2]

/-- Claim C1 fails on the code: each per-priority `PriorityQueue` holds
`(priority.value, task_id)` pairs, so inside one priority class the heap
orders by the task-id string, not by submission order.  Submitting id `"b"`
and then id `"a"` to NORMAL (no intervening dequeue, queue not full), the
worker dequeues `"a"` — the second submission — first. -/
theorem C1_counterexample :
    ((worker_get_task (submit_task ((submit_task (initial_state 100) "b" "grading"
        ProcessingPriority.normal).1) "a" "grading" ProcessingPriority.normal).1).map
      Prod.fst) = some "a" ∧ ("a" : String) ≠ "b" := by
  have hab : ("a" : String) < "b" := String.lt_iff_toList_lt.mpr (by decide)
  have h := dequeue_two_normal "b" "a" "grading"
  rw [if_pos hab] at h
  exact ⟨h, by decide⟩

/-- Claim C1 amended: within one priority class, dequeue order is the
lexicographic order of the task-id strings (the heap compares the
`(priority.value, task_id)` tuples, and the values tie), not FIFO
submission order: of two tasks submitted to an empty NORMAL class the
worker dequeues the one with the smaller id first, irrespective of
submission order; FIFO is recovered only when the earlier submission also
has the smaller id. -/
theorem C1_dequeue_min_id_amended (id1 id2 ttype : String) :
    ((worker_get_task (submit_task ((submit_task (initial_state 100) id1 ttype
        ProcessingPriority.normal).1) id2 ttype ProcessingPriority.normal).1).map
      Prod.fst) = some (if id2 < id1 then id2 else id1) :=
  dequeue_two_normal id1 id2 ttype

/-- Claim C2 fails on the code: a task whose type has no registered handler
is not failed permanently — the raised `ValueError` takes the generic retry
path, so after the first attempt the task is RETRYING with retry_count 1
(and a scheduled re-enqueue), not FAILED. -/
theorem C2_counterexample :
    ((get_task_status (process_task c2State "t1" none) "t1").map fun t =>
        (t.status, t.retry_count, t.error_message)) =
      some (ProcessingStatus.retrying, 1,
        some "No handler registered for task type: custom_type") ∧
    ProcessingStatus.retrying ≠ ProcessingStatus.failed := by
  exact ⟨rfl, by decide⟩

/-- Claim C2 amended: processing a task with an unregistered type raises
`ValueError("No handler registered for task type: ...")`, which is handled
by the ordinary retry machinery: while the retry budget lasts the task
becomes RETRYING with that message and stays in the pending dict (a retry
is scheduled); only once `retry_count` exceeds `max_retries` is it moved to
the failed dict with final status FAILED and the same no-handler message. -/
theorem C2_no_handler_retried_amended (st : PipelineState) (tid : String)
    (task : ProcessingTask) (hg : dictGet st.tasks tid = some task) :
    (task.retry_count + 1 ≤ task.max_retries →
      dictGet (process_task st tid none).tasks task.task_id = some
        { task with
          status := ProcessingStatus.retrying
          retry_count := task.retry_count + 1
          error_message :=
            some ("No handler registered for task type: " ++ task.task_type) }) ∧
    (task.max_retries < task.retry_count + 1 →
      dictGet (process_task st tid none).failed_tasks task.task_id = some
        { task with
          status := ProcessingStatus.failed
          retry_count := task.retry_count + 1
          error_message :=
            some ("No handler registered for task type: " ++ task.task_type) }) := by
  constructor
  · intro hret
    unfold process_task
    rw [hg]
    dsimp only
    unfold handle_task_error
    dsimp only
    rw [if_pos hret]
    rw [dictGet_dictSet, if_pos rfl]
  · intro hexc
    unfold process_task
    rw [hg]
    dsimp only
    unfold handle_task_error
    dsimp only
    rw [if_neg (by omega)]
    rw [dictGet_dictSet, if_pos rfl]

/-- Witness for C2's amended theorem: the concrete fresh no-handler task
satisfies the hypotheses and its first attempt ends RETRYING. -/
theorem C2_witness :
    dictGet (process_task c2State "t1" none).tasks "t1" = some
      { c2Task with
        status := ProcessingStatus.retrying
        retry_count := 1
        error_message := some "No handler registered for task type: custom_type" } :=
  (C2_no_handler_retried_amended c2State "t1" c2Task (by rfl)).1 (by decide)

/-- Claim C5: with the default `max_retries = 3` and a handler that raises
on every attempt (queues never full), once the pipeline settles — four
dequeue/process/retry rounds — the task's final status is FAILED and its
`retry_count` is exactly 4 = max_retries + 1 attempts. -/
theorem C5_retry_exhaustion (id ttype msg : String) (p : ProcessingPriority) :
    ((get_task_status (fail_cycles (submit_task (initial_state 100) id ttype p).1 msg 4)
        id).map fun t => (t.status, t.retry_count)) =
      some (ProcessingStatus.failed, 4) := by
  cases p <;>
    simp [fail_cycles, fail_cycle, worker_get_task, worker_scan, submit_task, initial_state,
      process_task, handle_task_error, retry_task, get_task_status, dictGet, dictSet,
      dictDel, pqGet, pqMin, pqRemove, entryLt, queueFull, ProcessingPriority.value]

end ProcessingPipeline

namespace ProcessingPipeline

/-- Claim C6 states the intended behavior, but the code computes the
confidence score *before* assigning `task.processing_time` (line 238 versus
line 245 of `_process_task`), so the processing-time branch of
`_calculate_confidence_score` never fires for the recorded score: a
`report_generation` task completing in 2 seconds (below the 5-second
threshold) records confidence `0.8` — exactly the score of the task with
`processing_time = None` — whereas evaluating the same scoring function
after the assignment, as the claim describes, gives `0.8 + 0.05`. -/
theorem C6_processing_time_adjustment_unapplied :
    ((get_task_status (process_task ((submit_task (initial_state 100) "t1"
        "report_generation" ProcessingPriority.normal).1) "t1"
        (some (Except.ok (emptyResult, 2)))) "t1").map fun t => t.confidence_score) =
      some (some (calculate_confidence_score
        { reportTaskTimed with processing_time := none } emptyResult)) ∧
    calculate_confidence_score { reportTaskTimed with processing_time := none } emptyResult
      = 4/5 ∧
    calculate_confidence_score reportTaskTimed emptyResult = 4/5 + 1/20 := by
  refine ⟨rfl, ?_, ?_⟩
  · simp [calculate_confidence_score, reportTaskTimed, emptyResult]
    norm_num
  · simp [calculate_confidence_score, reportTaskTimed, emptyResult]
    norm_num

end ProcessingPipeline
